import Mathlib

/-!
Shallow embedding of the student-feedback platform backend
(Express + Mongoose application).

The embedded pieces:
* the Feedback / Course / User documents and the in-memory store;
* the pre-save auto-tag hook of the Feedback schema;
* `Feedback.getCourseStatistics` (approved-only aggregation) and
  `Course.prototype.getStatistics` (aggregation over all statuses);
* the monthly-trends aggregation of GET /api/admin/dashboard;
* the route handlers POST /api/feedback, PUT /api/feedback/:id,
  DELETE /api/feedback/:id, DELETE /api/courses/:id,
  PATCH /api/courses/:id/toggle-active,
  PATCH /api/admin/students/:id/toggle-block.

Mutating handlers are modelled as explicit state passing:
they take a `Store` and return an `ApiResponse` (HTTP status code,
success flag, message) together with the resulting `Store`.
Numbers that the JavaScript code manipulates as doubles (averages)
are modelled as rationals; `Math.round` is `round` (both are
floor of x + 1/2).
-/

namespace FeedbackApp

/-- Feedback status enum: pending, approved, rejected (schema default: approved). -/
inductive Status where
  | pending
  | approved
  | rejected
deriving DecidableEq, Repr

/-- User role enum. -/
inductive Role where
  | student
  | admin
deriving DecidableEq, Repr

/-- A calendar timestamp, at day granularity (the aggregations only use
year, month and document ordering by date). -/
structure Date where
  year : Nat
  month : Nat
  day : Nat
deriving DecidableEq, Repr

/-- The comparison used by the createdAt gte match of the dashboard
aggregation: lexicographic order on (year, month, day). -/
def dateLe (a b : Date) : Bool :=
  Nat.blt a.year b.year ||
    (a.year == b.year &&
      (Nat.blt a.month b.month ||
        (a.month == b.month && Nat.ble a.day b.day)))

/-- A Feedback document (src/backend/models/Feedback.js schema). -/
structure Feedback where
  id : Nat
  student : Nat
  course : Nat
  rating : Nat
  message : String
  isAnonymous : Bool
  tags : List String
  status : Status
  createdAt : Date
deriving DecidableEq, Repr

/-- A Course document (src/backend/models/Course.js schema);
only the fields the verified routes read. -/
structure Course where
  id : Nat
  name : String
  code : String
  isActive : Bool
deriving DecidableEq, Repr

/-- A User document (User schema); only the fields the verified routes read. -/
structure User where
  id : Nat
  role : Role
  isBlocked : Bool
deriving DecidableEq, Repr

/-- The entity store: the three MongoDB collections. -/
structure Store where
  users : List User
  courses : List Course
  feedbacks : List Feedback
deriving DecidableEq, Repr

/-- An HTTP response as produced by the route handlers:
status code, success flag, message string. -/
structure ApiResponse where
  status : Nat
  success : Bool
  message : String
deriving DecidableEq, Repr

/-- Course.findById. -/
def findCourse (s : Store) (cid : Nat) : Option Course :=
  s.courses.find? (fun c => c.id == cid)

/-- User.findById. -/
def findUser (s : Store) (uid : Nat) : Option User :=
  s.users.find? (fun u => u.id == uid)

/-- Feedback.findById. -/
def findFeedback (s : Store) (fid : Nat) : Option Feedback :=
  s.feedbacks.find? (fun f => f.id == fid)

/-- Feedback.findOne on the (student, course) pair, the application-level
duplicate check of POST /api/feedback. -/
def findFeedbackByPair (s : Store) (sid cid : Nat) : Option Feedback :=
  s.feedbacks.find? (fun f => f.student == sid && f.course == cid)

/-- The rating bucket of the auto-tagging rule, as the spec states it:
positive if rating is at least 4, needs-improvement if at most 2,
otherwise neutral. -/
def sentimentTag (rating : Nat) : String :=
  if 4 ≤ rating then "positive"
  else if rating ≤ 2 then "needs-improvement"
  else "neutral"

/-- The body of the pre-save hook of the Feedback schema
(feedbackSchema.pre save in src/backend/models/Feedback.js):
three branches on the rating, each pushing its tag onto the
tags array when it is not already included. -/
def applyAutoTags (rating : Nat) (tags : List String) : List String :=
  if 4 ≤ rating then
    if tags.contains "positive" then tags else tags ++ ["positive"]
  else if rating ≤ 2 then
    if tags.contains "needs-improvement" then tags
    else tags ++ ["needs-improvement"]
  else
    if tags.contains "neutral" then tags else tags ++ ["neutral"]

/-- Math.round on a rational: floor of q + 1/2, matching the JavaScript
Math.round used on the (positive) averages. -/
def round2 (q : ℚ) : ℚ := ((round (q * 100) : ℤ) : ℚ) / 100

/-- The rating-distribution object initialised by the statistics code:
keys 1 to 5, every count 0. Modelled as an association list so that the
presence of the keys is part of the value. -/
def emptyDist : List (Nat × Nat) := [(1, 0), (2, 0), (3, 0), (4, 0), (5, 0)]

/-- One step of building the distribution: ratingDist at rating becomes
(ratingDist at rating or 0) + 1. An existing key is incremented in place;
a missing key would be appended with count 1. -/
def bumpDist (d : List (Nat × Nat)) (r : Nat) : List (Nat × Nat) :=
  if d.any (fun p => p.1 == r) then
    d.map (fun p => if p.1 == r then (p.1, p.2 + 1) else p)
  else d ++ [(r, 1)]

/-- Result shape of the course statistics aggregations. -/
@[ext]
structure CourseStats where
  totalFeedback : Nat
  averageRating : ℚ
  ratingDistribution : List (Nat × Nat)
deriving DecidableEq, Repr

/-- The sum of the ratings of a list of feedback documents (the ratings
are integers, so the mean the aggregation computes is this sum divided by
the count). -/
def ratingSum (l : List Feedback) : ℕ :=
  (l.map (fun f => f.rating)).sum

/-- Shared tail of both course statistics methods: given the documents the
match stage kept, either the zeroed structure (empty aggregation result) or
the count, the rounded mean rating, and the histogram of the ratings. -/
def courseStatsOf (matched : List Feedback) : CourseStats :=
  if matched.isEmpty then
    { totalFeedback := 0
      averageRating := 0
      ratingDistribution := emptyDist }
  else
    { totalFeedback := matched.length
      averageRating := round2 ((ratingSum matched : ℚ) / (matched.length : ℚ))
      ratingDistribution := (matched.map (fun f => f.rating)).foldl bumpDist emptyDist }

/-- Feedback.getCourseStatistics (static on the Feedback model): the match
stage keeps documents of the course whose status is approved. -/
def getCourseStatistics (fbs : List Feedback) (cid : Nat) : CourseStats :=
  courseStatsOf (fbs.filter (fun f => f.course == cid && f.status == Status.approved))

/-- Course.prototype.getStatistics (method on the Course model, used by
GET /api/courses/:id): the match stage keeps every document of the course,
with no status condition. -/
def courseGetStatistics (fbs : List Feedback) (cid : Nat) : CourseStats :=
  courseStatsOf (fbs.filter (fun f => f.course == cid))

/-- POST /api/feedback (routes/feedback.js). After express-validator has
accepted the body, the handler checks the course exists, checks it is
active, checks no feedback of this student for this course exists, then
creates the document (schema default status: approved; the pre-save hook
runs on the new document). `newId` and `now` stand for the ObjectId and
createdAt the store assigns. -/
def submitFeedback (s : Store) (callerId courseId rating : Nat) (message : String)
    (isAnonymous : Bool) (tags : List String) (newId : Nat) (now : Date) :
    ApiResponse × Store :=
  match findCourse s courseId with
  | none => (⟨404, false, "Course not found"⟩, s)
  | some c =>
    if !c.isActive then
      (⟨400, false, "Cannot submit feedback for inactive course"⟩, s)
    else
      match findFeedbackByPair s callerId courseId with
      | some _ =>
        (⟨400, false, "You have already submitted feedback for this course"⟩, s)
      | none =>
        let fb : Feedback :=
          { id := newId
            student := callerId
            course := courseId
            rating := rating
            message := message
            isAnonymous := isAnonymous
            tags := applyAutoTags rating tags
            status := Status.approved
            createdAt := now }
        (⟨201, true, "Feedback submitted successfully"⟩,
         { s with feedbacks := s.feedbacks ++ [fb] })

/-- An update request body for PUT /api/feedback/:id: each field optional
(absent fields are left untouched by the handler). -/
structure UpdateBody where
  rating : Option Nat
  message : Option String
  isAnonymous : Option Bool
  tags : Option (List String)
deriving DecidableEq, Repr

/-- The field-assignment block of PUT /api/feedback/:id: each provided
field overwrites the stored one. -/
def assignBody (fb : Feedback) (b : UpdateBody) : Feedback :=
  { fb with
    rating := b.rating.getD fb.rating
    message := b.message.getD fb.message
    isAnonymous := b.isAnonymous.getD fb.isAnonymous
    tags := b.tags.getD fb.tags }

/-- Whether the handler left the rating path of the document modified:
a provided rating different from the stored one (assigning the stored
value back does not mark the path modified). -/
def ratingModifiedBy (fb : Feedback) (b : UpdateBody) : Bool :=
  match b.rating with
  | some r => r != fb.rating
  | none => false

/-- The in-memory document update performed by PUT /api/feedback/:id
before save: assign the provided fields, then the pre-save hook (when the
rating path is modified) may append a sentiment tag. -/
def updatedFeedbackDoc (fb : Feedback) (b : UpdateBody) : Feedback :=
  if ratingModifiedBy fb b then
    { assignBody fb b with
      tags := applyAutoTags (assignBody fb b).rating (assignBody fb b).tags }
  else assignBody fb b

/-- PUT /api/feedback/:id (routes/feedback.js). Finds the document, rejects
a caller who is not the owner with 403, otherwise assigns the provided
fields and saves; the pre-save hook appends a sentiment tag when the
rating path was modified (assigning the value already stored does not mark
the path modified). -/
def updateFeedback (s : Store) (callerId fid : Nat) (b : UpdateBody) :
    ApiResponse × Store :=
  match findFeedback s fid with
  | none => (⟨404, false, "Feedback not found"⟩, s)
  | some fb =>
    if fb.student != callerId then
      (⟨403, false, "Not authorized to update this feedback"⟩, s)
    else
      let fb2 := updatedFeedbackDoc fb b
      (⟨200, true, "Feedback updated successfully"⟩,
       { s with feedbacks := s.feedbacks.map (fun g => if g.id == fid then fb2 else g) })

/-- DELETE /api/feedback/:id (routes/feedback.js). Finds the document,
rejects a caller who is not the owner with 403, otherwise removes it. -/
def deleteFeedback (s : Store) (callerId fid : Nat) : ApiResponse × Store :=
  match findFeedback s fid with
  | none => (⟨404, false, "Feedback not found"⟩, s)
  | some fb =>
    if fb.student != callerId then
      (⟨403, false, "Not authorized to delete this feedback"⟩, s)
    else
      (⟨200, true, "Feedback deleted successfully"⟩,
       { s with feedbacks := s.feedbacks.filter (fun g => !(g.id == fid)) })

/-- Feedback.countDocuments with a course filter, as used by the
delete-course guard. -/
def dependentFeedbackCount (s : Store) (cid : Nat) : Nat :=
  (s.feedbacks.filter (fun f => f.course == cid)).length

/-- DELETE /api/courses/:id (routes/courses.js). Finds the course; when
the course has at least one feedback document, refuses with a 400 whose
message interpolates the exact count; otherwise removes the course. -/
def deleteCourse (s : Store) (cid : Nat) : ApiResponse × Store :=
  match findCourse s cid with
  | none => (⟨404, false, "Course not found"⟩, s)
  | some c =>
    let feedbackCount := dependentFeedbackCount s c.id
    if 0 < feedbackCount then
      (⟨400, false,
        "Cannot delete course. It has " ++ toString feedbackCount ++
          " feedback entries. Consider deactivating instead."⟩, s)
    else
      (⟨200, true, "Course deleted successfully"⟩,
       { s with courses := s.courses.filter (fun d => !(d.id == cid)) })

/-- PATCH /api/courses/:id/toggle-active (routes/courses.js). Finds the
course and flips isActive, unconditionally on the feedback count. -/
def toggleActive (s : Store) (cid : Nat) : ApiResponse × Store :=
  match findCourse s cid with
  | none => (⟨404, false, "Course not found"⟩, s)
  | some c =>
    let c' : Course := { c with isActive := !c.isActive }
    (⟨200, true,
      if c'.isActive then "Course activated successfully"
      else "Course deactivated successfully"⟩,
     { s with courses := s.courses.map (fun d => if d.id == cid then c' else d) })

/-- PATCH /api/admin/students/:id/toggle-block (routes/admin.js). Finds the
user, rejects a non-student target and a self-target, otherwise flips
isBlocked. -/
def toggleBlock (s : Store) (adminId uid : Nat) : ApiResponse × Store :=
  match findUser s uid with
  | none => (⟨404, false, "Student not found"⟩, s)
  | some u =>
    if u.role != Role.student then
      (⟨400, false, "Can only block/unblock students"⟩, s)
    else if u.id == adminId then
      (⟨400, false, "Cannot block yourself"⟩, s)
    else
      let u' : User := { u with isBlocked := !u.isBlocked }
      (⟨200, true,
        if u'.isBlocked then "Student blocked successfully"
        else "Student unblocked successfully"⟩,
       { s with users := s.users.map (fun v => if v.id == uid then u' else v) })

/-- The month label of the dashboard trends projection: the year, a dash,
and the zero-padded month. -/
def monthLabel (y m : Nat) : String :=
  toString y ++ "-" ++ (if m < 10 then "0" ++ toString m else toString m)

/-- One row of the monthlyTrends aggregation output. -/
structure TrendEntry where
  month : String
  count : Nat
  averageRating : ℚ
deriving DecidableEq, Repr

/-- The distinct group keys of an aggregation, in order of first
occurrence (one output document per distinct key). -/
def groupKeys (l : List (Nat × Nat)) : List (Nat × Nat) :=
  l.foldl (fun acc k => if k ∈ acc then acc else acc ++ [k]) []

/-- The documents of one (year, month) group of the trends aggregation. -/
def trendGroup (matched : List Feedback) (k : Nat × Nat) : List Feedback :=
  matched.filter (fun f => (f.createdAt.year, f.createdAt.month) == k)

/-- The output row the group and project stages produce for one
(year, month) key over the matched documents. -/
def trendEntry (matched : List Feedback) (k : Nat × Nat) : TrendEntry :=
  { month := monthLabel k.1 k.2
    count := (trendGroup matched k).length
    averageRating :=
      round2 ((ratingSum (trendGroup matched k) : ℚ) /
        ((trendGroup matched k).length : ℚ)) }

/-- The documents the match stage of the trends aggregation keeps. -/
def trendMatched (fbs : List Feedback) (cutoff : Date) : List Feedback :=
  fbs.filter (fun f => dateLe cutoff f.createdAt)

/-- The monthlyTrends aggregation of GET /api/admin/dashboard: match
documents created on or after the cutoff (six months before now), group by
(year, month) of createdAt with a count and mean rating, sort by key
ascending, project the label. Groups exist only for keys that occur among
the matched documents. -/
def monthlyTrends (fbs : List Feedback) (cutoff : Date) : List TrendEntry :=
  ((groupKeys ((trendMatched fbs cutoff).map
      (fun f => (f.createdAt.year, f.createdAt.month)))).mergeSort
    (fun a b => Nat.blt a.1 b.1 || (a.1 == b.1 && Nat.ble a.2 b.2))).map
    (trendEntry (trendMatched fbs cutoff))

/- ------------------------------------------------------------------ -/
/- Helper lemmas                                                       -/
/- ------------------------------------------------------------------ -/

/-- Replacing, in a list, every element satisfying p by a fixed element b
that itself satisfies p keeps find? succeeding, now returning b. -/
theorem find?_map_replace {α : Type} (p : α → Bool) (b : α) (l : List α) (a : α)
    (h : l.find? p = some a) (hb : p b = true) :
    (l.map (fun x => if p x then b else x)).find? p = some b := by
  induction l with
  | nil => simp at h
  | cons x xs ih =>
    by_cases hx : p x = true
    · simp [hx, hb]
    · have hx' : p x = false := by simpa using hx
      rw [List.find?_cons_of_neg _ (by simp [hx'])] at h
      simp [hx', List.find?_cons_of_neg, ih h]

/-- The count of a course statistics result is the number of matched
documents. -/
theorem courseStatsOf_totalFeedback (l : List Feedback) :
    (courseStatsOf l).totalFeedback = l.length := by
  cases l <;> rfl

/-- The map step of bumpDist leaves the key set of the distribution
unchanged. -/
theorem hasKey_map_bump (d : List (Nat × Nat)) (r k : Nat) :
    (d.map (fun p => if p.1 == r then (p.1, p.2 + 1) else p)).any (fun p => p.1 == k) =
      d.any (fun p => p.1 == k) := by
  induction d with
  | nil => rfl
  | cons p ps ih =>
    simp only [List.map_cons, List.any_cons, ih]
    by_cases hp : p.1 == r
    · simp [hp]
    · simp [hp]

/-- bumpDist never drops a key from the distribution. -/
theorem hasKey_bumpDist (d : List (Nat × Nat)) (r k : Nat)
    (h : d.any (fun p => p.1 == k) = true) :
    (bumpDist d r).any (fun p => p.1 == k) = true := by
  unfold bumpDist
  split
  · rw [hasKey_map_bump]; exact h
  · simp [List.any_append, h]

/-- Folding bumpDist over any rating list never drops a key. -/
theorem hasKey_foldl_bump (rs : List Nat) (d : List (Nat × Nat)) (k : Nat)
    (h : d.any (fun p => p.1 == k) = true) :
    (rs.foldl bumpDist d).any (fun p => p.1 == k) = true := by
  induction rs generalizing d with
  | nil => exact h
  | cons r rs ih => exact ih _ (hasKey_bumpDist d r k h)

/-- An element of the accumulated distinct-key list comes from the
accumulator or from the traversed list. -/
theorem mem_groupKeys_aux (l acc : List (Nat × Nat)) (k : Nat × Nat)
    (h : k ∈ l.foldl (fun acc k => if k ∈ acc then acc else acc ++ [k]) acc) :
    k ∈ acc ∨ k ∈ l := by
  induction l generalizing acc with
  | nil => exact Or.inl h
  | cons x xs ih =>
    rcases ih _ h with hacc | hxs
    · have hacc' : k ∈ (if x ∈ acc then acc else acc ++ [x]) := hacc
      by_cases hx : x ∈ acc
      · rw [if_pos hx] at hacc'
        exact Or.inl hacc'
      · rw [if_neg hx] at hacc'
        rcases List.mem_append.mp hacc' with h1 | h1
        · exact Or.inl h1
        · exact Or.inr (by simp at h1; simp [h1])
    · exact Or.inr (List.mem_cons_of_mem _ hxs)

/-- Every group key of an aggregation occurs in the grouped list. -/
theorem mem_groupKeys (l : List (Nat × Nat)) (k : Nat × Nat)
    (h : k ∈ groupKeys l) : k ∈ l := by
  rcases mem_groupKeys_aux l [] k h with h0 | h1
  · simp at h0
  · exact h1

/-- Pushing a tag when absent: no change when present, exactly one append
when absent, and every existing element survives. -/
theorem pushIfAbsent_spec (x : String) (tags : List String) :
    (x ∈ tags → (if tags.contains x then tags else tags ++ [x]) = tags) ∧
    (x ∉ tags → (if tags.contains x then tags else tags ++ [x]) = tags ++ [x]) ∧
    (∀ t ∈ tags, t ∈ (if tags.contains x then tags else tags ++ [x])) := by
  by_cases hc : x ∈ tags
  · rw [if_pos (by simpa using hc)]
    exact ⟨fun _ => rfl, fun h => absurd hc h, fun t ht => ht⟩
  · rw [if_neg (by simpa using hc)]
    exact ⟨fun h => absurd h hc, fun _ => rfl, fun t ht => List.mem_append_left _ ht⟩

/-- Evaluation rule for the two-decimal rounding: when n ≤ 100 q + 1/2 < n + 1
for an integer n, the rounded value is n / 100. -/
theorem round2_eval (q : ℚ) (n : ℤ) (h1 : (n : ℚ) ≤ q * 100 + 1 / 2)
    (h2 : q * 100 + 1 / 2 < n + 1) : round2 q = (n : ℚ) / 100 := by
  unfold round2
  rw [round_eq, Int.floor_eq_iff.mpr ⟨h1, h2⟩]

/-- The document update of PUT /api/feedback/:id leaves the identity
fields alone: id, student reference, course reference and status are
those of the stored document, whatever the body. -/
theorem updatedFeedbackDoc_frame (fb : Feedback) (b : UpdateBody) :
    (updatedFeedbackDoc fb b).student = fb.student ∧
    (updatedFeedbackDoc fb b).course = fb.course ∧
    (updatedFeedbackDoc fb b).status = fb.status ∧
    (updatedFeedbackDoc fb b).id = fb.id := by
  unfold updatedFeedbackDoc
  split
  · exact ⟨rfl, rfl, rfl, rfl⟩
  · exact ⟨rfl, rfl, rfl, rfl⟩

/- ------------------------------------------------------------------ -/
/- Concrete fixtures for witnesses and counterexamples                 -/
/- ------------------------------------------------------------------ -/

/-- A concrete active course. -/
def demoCourse : Course :=
  { id := 1, name := "Introduction to Computer Science", code := "CS101", isActive := true }

/-- A concrete approved feedback of student 100 for course 1. -/
def demoFeedback1 : Feedback :=
  { id := 10, student := 100, course := 1, rating := 4
    message := "Excellent course with clear examples.", isAnonymous := false
    tags := ["positive"], status := Status.approved, createdAt := ⟨2025, 3, 15⟩ }

/-- A concrete store: one admin (id 7), two students (ids 100, 101),
one course, one feedback. -/
def demoStore : Store :=
  { users := [⟨7, Role.admin, false⟩, ⟨100, Role.student, false⟩, ⟨101, Role.student, false⟩]
    courses := [demoCourse]
    feedbacks := [demoFeedback1] }

/-- A feedback document whose status is pending, for course 1. -/
def pendingFeedbackDemo : Feedback :=
  { id := 20, student := 102, course := 1, rating := 3
    message := "Average course, could be better.", isAnonymous := false
    tags := [], status := Status.pending, createdAt := ⟨2025, 4, 2⟩ }

/-- Approved feedback documents for course 1 with ratings 5, 5, 4, 3, 1
(one per student). -/
def ratingsDemoFeedbacks : List Feedback :=
  [ { id := 1, student := 1, course := 1, rating := 5
      message := "Fantastic course, highly recommended.", isAnonymous := false
      tags := [], status := Status.approved, createdAt := ⟨2025, 1, 5⟩ }
  , { id := 2, student := 2, course := 1, rating := 5
      message := "Outstanding teaching methodology here.", isAnonymous := false
      tags := [], status := Status.approved, createdAt := ⟨2025, 1, 9⟩ }
  , { id := 3, student := 3, course := 1, rating := 4
      message := "Good course overall, well structured.", isAnonymous := true
      tags := [], status := Status.approved, createdAt := ⟨2025, 2, 1⟩ }
  , { id := 4, student := 4, course := 1, rating := 3
      message := "Average course, some topics confusing.", isAnonymous := false
      tags := [], status := Status.approved, createdAt := ⟨2025, 2, 14⟩ }
  , { id := 5, student := 5, course := 1, rating := 1
      message := "Pace was far too fast for beginners.", isAnonymous := true
      tags := [], status := Status.approved, createdAt := ⟨2025, 3, 3⟩ } ]

/-- The zeroed statistics structure the aggregations return on an empty
match. -/
def zeroStats : CourseStats :=
  { totalFeedback := 0, averageRating := 0, ratingDistribution := emptyDist }

/- ------------------------------------------------------------------ -/
/- Claims                                                              -/
/- ------------------------------------------------------------------ -/

/-- Claim C1: for every store and every submission whose course exists and
is active, if a feedback record of the same student for the same course
already exists, POST /api/feedback fails with the duplicate (Conflict)
response and the store is unchanged, so no second record for the
(student, course) pair is ever created. -/
theorem submit_duplicate_rejected (s : Store) (caller courseId rating : Nat)
    (message : String) (isAnonymous : Bool) (tags : List String) (newId : Nat)
    (now : Date) (c : Course) (hc : findCourse s courseId = some c)
    (hact : c.isActive = true) (f : Feedback)
    (hdup : findFeedbackByPair s caller courseId = some f) :
    (submitFeedback s caller courseId rating message isAnonymous tags newId now).1 =
      ⟨400, false, "You have already submitted feedback for this course"⟩ ∧
    (submitFeedback s caller courseId rating message isAnonymous tags newId now).2 = s := by
  simp [submitFeedback, hc, hact, hdup]

/-- Witness for C1 at a concrete store: student 100 already has feedback
for course 1; a second submission is rejected and the store is unchanged. -/
theorem submit_duplicate_rejected_witness :
    (submitFeedback demoStore 100 1 5 "Trying to submit a second time." false [] 11 ⟨2025, 4, 1⟩).1 =
      ⟨400, false, "You have already submitted feedback for this course"⟩ ∧
    (submitFeedback demoStore 100 1 5 "Trying to submit a second time." false [] 11 ⟨2025, 4, 1⟩).2 =
      demoStore :=
  submit_duplicate_rejected demoStore 100 1 5 "Trying to submit a second time." false [] 11
    ⟨2025, 4, 1⟩ demoCourse (by decide) (by decide) demoFeedback1 (by decide)

/-- Counterexample for C2: a single pending feedback document for course 1.
Course.prototype.getStatistics, the statistics the GET /api/courses/:id
route returns, counts it (totalFeedback is 1) although the collection has
no approved record at all, so the course statistics operation does not
count only approved records. -/
theorem course_statistics_counts_pending :
    pendingFeedbackDemo.status = Status.pending ∧
    ([pendingFeedbackDemo].filter (fun f => f.status == Status.approved)) = [] ∧
    (courseGetStatistics [pendingFeedbackDemo] 1).totalFeedback = 1 := by
  decide

/-- Claim C2 (amended): Feedback.getCourseStatistics counts only approved
records (its result over any collection equals its result over the
approved-only subcollection), while Course.prototype.getStatistics, used
by GET /api/courses/:id, aggregates over all statuses (its totalFeedback
is the number of records of the course, of any status). -/
theorem course_statistics_status_scope (fbs : List Feedback) (cid : Nat) :
    getCourseStatistics fbs cid =
      getCourseStatistics (fbs.filter (fun f => f.status == Status.approved)) cid ∧
    (courseGetStatistics fbs cid).totalFeedback =
      (fbs.filter (fun f => f.course == cid)).length := by
  constructor
  · unfold getCourseStatistics
    have hm :
        fbs.filter (fun f => f.course == cid && f.status == Status.approved) =
          (fbs.filter (fun f => f.status == Status.approved)).filter
            (fun f => f.course == cid && f.status == Status.approved) := by
      rw [List.filter_filter]
      apply List.filter_congr
      intro f _
      cases hc : (f.course == cid) <;> cases hs : (f.status == Status.approved) <;>
        simp [hc, hs]
    rw [← hm]
  · exact courseStatsOf_totalFeedback _

/-- Claim C3: on approved ratings [5, 5, 4, 3, 1] for one course,
Feedback.getCourseStatistics returns averageRating 18/5 = 3.6 (rounded to
two decimal places) and the distribution 1 ↦ 1, 2 ↦ 0, 3 ↦ 1, 4 ↦ 1,
5 ↦ 2. -/
theorem course_statistics_example :
    getCourseStatistics ratingsDemoFeedbacks 1 =
      { totalFeedback := 5
        averageRating := 18 / 5
        ratingDistribution := [(1, 1), (2, 0), (3, 1), (4, 1), (5, 2)] } := by
  have ha : (getCourseStatistics ratingsDemoFeedbacks 1).averageRating = 18 / 5 := by
    show round2 (((18 : ℕ) : ℚ) / ((5 : ℕ) : ℚ)) = 18 / 5
    rw [round2_eval (((18 : ℕ) : ℚ) / ((5 : ℕ) : ℚ)) 360 (by norm_num) (by norm_num)]
    norm_num
  apply CourseStats.ext
  · rfl
  · exact ha
  · rfl

/-- Claim C4: for a course with no approved feedback the statistics
aggregation returns the zeroed structure rather than an error, and the
rating distribution it returns always carries all five keys 1 to 5, for
every input collection. -/
theorem course_statistics_zero_default (fbs : List Feedback) (cid : Nat) :
    (fbs.filter (fun f => f.course == cid && f.status == Status.approved) = [] →
      getCourseStatistics fbs cid = zeroStats) ∧
    (∀ k, 1 ≤ k → k ≤ 5 →
      ((getCourseStatistics fbs cid).ratingDistribution.any (fun p => p.1 == k)) = true) := by
  constructor
  · intro h
    unfold getCourseStatistics
    rw [h]
    rfl
  · intro k hk1 hk5
    have hek : emptyDist.any (fun p => p.1 == k) = true := by
      interval_cases k <;> decide
    unfold getCourseStatistics
    cases hm : fbs.filter (fun f => f.course == cid && f.status == Status.approved) with
    | nil => exact hek
    | cons x xs => exact hasKey_foldl_bump _ _ _ hek

/-- Witness for C4: the empty store has no approved feedback for course 1,
and the zeroed result still carries key 3 of the distribution. -/
theorem course_statistics_zero_default_witness :
    getCourseStatistics [] 1 = zeroStats ∧
    ((getCourseStatistics [] 1).ratingDistribution.any (fun p => p.1 == 3)) = true :=
  ⟨(course_statistics_zero_default [] 1).1 rfl,
   (course_statistics_zero_default [] 1).2 3 (by decide) (by decide)⟩

/-- Claim C5: every row of the monthlyTrends aggregation has count at
least 1; a month of the window with no feedback yields no group and is
omitted, never emitted with count 0. -/
theorem monthly_trends_no_zero_months (fbs : List Feedback) (cutoff : Date)
    (e : TrendEntry) (he : e ∈ monthlyTrends fbs cutoff) : 1 ≤ e.count := by
  unfold monthlyTrends at he
  rcases List.mem_map.mp he with ⟨k, hk, rfl⟩
  have hk2 := mem_groupKeys _ _ ((List.mem_mergeSort).mp hk)
  rcases List.mem_map.mp hk2 with ⟨f, hf, hfk⟩
  have hmem : f ∈ trendGroup (trendMatched fbs cutoff) k := by
    refine List.mem_filter.mpr ⟨hf, ?_⟩
    simp [hfk]
  show 1 ≤ (trendGroup (trendMatched fbs cutoff) k).length
  exact List.length_pos.mpr (List.ne_nil_of_mem hmem)

/-- A feedback document of March 2025, inside a window cut off in
October 2024. -/
def trendDemoFeedback : Feedback :=
  { id := 30, student := 103, course := 1, rating := 4
    message := "Enjoyed the lab sessions a lot.", isAnonymous := false
    tags := [], status := Status.approved, createdAt := ⟨2025, 3, 15⟩ }

/-- Witness for C5: the single trend row produced by one March 2025
feedback has count at least 1. -/
theorem monthly_trends_no_zero_months_witness :
    1 ≤ (trendEntry (trendMatched [trendDemoFeedback] ⟨2024, 10, 11⟩) (2025, 3)).count :=
  monthly_trends_no_zero_months [trendDemoFeedback] ⟨2024, 10, 11⟩ _
    (List.mem_map.mpr ⟨(2025, 3), (List.mem_mergeSort).mpr (by decide), rfl⟩)

/-- Claim C6: a student who does not own a feedback record gets 403
Forbidden from both PUT and DELETE /api/feedback/:id, and the store — so
every field of the stored record — is unchanged; the record remains in the
store. -/
theorem foreign_update_delete_forbidden (s : Store) (caller fid : Nat)
    (b : UpdateBody) (fb : Feedback) (hf : findFeedback s fid = some fb)
    (hown : fb.student ≠ caller) :
    (updateFeedback s caller fid b).1 =
      ⟨403, false, "Not authorized to update this feedback"⟩ ∧
    (updateFeedback s caller fid b).2 = s ∧
    (deleteFeedback s caller fid).1 =
      ⟨403, false, "Not authorized to delete this feedback"⟩ ∧
    (deleteFeedback s caller fid).2 = s := by
  have hbne : (fb.student != caller) = true := by simp [hown]
  simp [updateFeedback, deleteFeedback, hf, hbne]

/-- Witness for C6: student 101 attempting to update or delete the
feedback owned by student 100 gets 403 and the store is unchanged. -/
theorem foreign_update_delete_forbidden_witness :
    (updateFeedback demoStore 101 10 ⟨some 5, none, none, none⟩).1 =
      ⟨403, false, "Not authorized to update this feedback"⟩ ∧
    (updateFeedback demoStore 101 10 ⟨some 5, none, none, none⟩).2 = demoStore ∧
    (deleteFeedback demoStore 101 10).1 =
      ⟨403, false, "Not authorized to delete this feedback"⟩ ∧
    (deleteFeedback demoStore 101 10).2 = demoStore :=
  foreign_update_delete_forbidden demoStore 101 10 ⟨some 5, none, none, none⟩
    demoFeedback1 (by decide) (by decide)

/-- Claim C7: deleting a course with n ≥ 1 dependent feedback records
fails with a 400 whose message names exactly n, the store — hence the
course — is unchanged, while toggle-active on the same course succeeds
(status 200) regardless of the dependent count. -/
theorem delete_course_guarded (s : Store) (cid : Nat) (c : Course)
    (hc : findCourse s cid = some c)
    (hn : 0 < dependentFeedbackCount s c.id) :
    (deleteCourse s cid).1 =
      ⟨400, false,
        "Cannot delete course. It has " ++ toString (dependentFeedbackCount s c.id) ++
          " feedback entries. Consider deactivating instead."⟩ ∧
    (deleteCourse s cid).2 = s ∧
    findCourse (deleteCourse s cid).2 cid = some c ∧
    (toggleActive s cid).1.status = 200 ∧
    (toggleActive s cid).1.success = true := by
  simp [deleteCourse, toggleActive, hc, hn]

/-- Witness for C7 on the demo store: course 1 has one dependent feedback
record; deletion is refused with the message naming 1, the course is
still found, and toggle-active succeeds. -/
theorem delete_course_guarded_witness :
    (deleteCourse demoStore 1).1 =
      ⟨400, false,
        "Cannot delete course. It has 1 feedback entries. Consider deactivating instead."⟩ ∧
    (deleteCourse demoStore 1).2 = demoStore ∧
    findCourse (deleteCourse demoStore 1).2 1 = some demoCourse ∧
    (toggleActive demoStore 1).1.status = 200 ∧
    (toggleActive demoStore 1).1.success = true :=
  delete_course_guarded demoStore 1 demoCourse (by decide) (by decide)

/-- For an existing student target distinct from the caller, toggle-block
succeeds and flips exactly the isBlocked flag of that user in the store. -/
theorem toggleBlock_ok (s : Store) (adminId uid : Nat) (u : User)
    (hu : findUser s uid = some u) (hrole : u.role = Role.student)
    (hself : u.id ≠ adminId) :
    toggleBlock s adminId uid =
      (⟨200, true,
        if !u.isBlocked then "Student blocked successfully"
        else "Student unblocked successfully"⟩,
       { s with users := s.users.map (fun v =>
          if v.id == uid then { u with isBlocked := !u.isBlocked } else v) }) := by
  have h1 : (u.role != Role.student) = false := by simp [hrole]
  have h2 : (u.id == adminId) = false := by simp [hself]
  simp [toggleBlock, hu, h1, h2]

/-- Claim C8: toggle-block on an existing student (distinct from the
calling admin) succeeds, one application flips the stored isBlocked flag,
and a second application restores the original user document exactly. -/
theorem toggle_block_involution (s : Store) (adminId uid : Nat) (u : User)
    (hu : findUser s uid = some u) (hrole : u.role = Role.student)
    (hself : u.id ≠ adminId) :
    (toggleBlock s adminId uid).1.status = 200 ∧
    findUser (toggleBlock s adminId uid).2 uid =
      some { u with isBlocked := !u.isBlocked } ∧
    findUser (toggleBlock (toggleBlock s adminId uid).2 adminId uid).2 uid = some u := by
  have hu' : s.users.find? (fun v : User => v.id == uid) = some u := hu
  have hpu := List.find?_some hu'
  have hrw := toggleBlock_ok s adminId uid u hu hrole hself
  have hs1 : findUser (toggleBlock s adminId uid).2 uid =
      some { u with isBlocked := !u.isBlocked } := by
    rw [hrw]
    exact find?_map_replace _ _ s.users u hu' hpu
  have hrw2 := toggleBlock_ok (toggleBlock s adminId uid).2 adminId uid
    { u with isBlocked := !u.isBlocked } hs1 hrole hself
  have hs1' : ((toggleBlock s adminId uid).2).users.find? (fun v : User => v.id == uid) =
      some { u with isBlocked := !u.isBlocked } := hs1
  have hs2 : findUser (toggleBlock (toggleBlock s adminId uid).2 adminId uid).2 uid =
      some { u with isBlocked := !(!u.isBlocked) } := by
    rw [hrw2]
    exact find?_map_replace _ _ _ _ hs1' hpu
  refine ⟨by rw [hrw], hs1, ?_⟩
  rw [hs2, Bool.not_not]

/-- Witness for C8: blocking student 101 (caller: admin 7) flips isBlocked
to true; toggling again restores the original user document. -/
theorem toggle_block_involution_witness :
    (toggleBlock demoStore 7 101).1.status = 200 ∧
    findUser (toggleBlock demoStore 7 101).2 101 = some ⟨101, Role.student, true⟩ ∧
    findUser (toggleBlock (toggleBlock demoStore 7 101).2 7 101).2 101 =
      some ⟨101, Role.student, false⟩ :=
  toggle_block_involution demoStore 7 101 ⟨101, Role.student, false⟩
    (by decide) rfl (by decide)

/-- Claim C9: on create or rating change, the pre-save hook appends the
single sentiment tag of the rating bucket exactly when it is absent,
leaves the tags unchanged when it is present, and never removes any
pre-existing tag (in particular a stale sentiment tag of a different
bucket survives). -/
theorem auto_tag_append_only (rating : Nat) (tags : List String) :
    (sentimentTag rating ∈ tags → applyAutoTags rating tags = tags) ∧
    (sentimentTag rating ∉ tags →
      applyAutoTags rating tags = tags ++ [sentimentTag rating]) ∧
    (∀ t ∈ tags, t ∈ applyAutoTags rating tags) := by
  unfold applyAutoTags sentimentTag
  by_cases h4 : 4 ≤ rating
  · simp only [if_pos h4]
    exact pushIfAbsent_spec "positive" tags
  · by_cases h2 : rating ≤ 2
    · simp only [if_neg h4, if_pos h2]
      exact pushIfAbsent_spec "needs-improvement" tags
    · simp only [if_neg h4, if_neg h2]
      exact pushIfAbsent_spec "neutral" tags

/-- Witness for C9: on rating 5 with a stale tag list, the positive tag is
appended once and the existing tag survives. -/
theorem auto_tag_append_only_witness :
    applyAutoTags 5 ["helpful"] = ["helpful"] ++ [sentimentTag 5] ∧
    "helpful" ∈ applyAutoTags 5 ["helpful"] :=
  ⟨(auto_tag_append_only 5 ["helpful"]).2.1 (by decide),
   (auto_tag_append_only 5 ["helpful"]).2.2 "helpful" (by simp)⟩

/-- Claim C10: an owner update through PUT /api/feedback/:id stores
exactly the updated document, whose student reference, course reference
and status equal those of the original record, for every request body
(only rating, message, isAnonymous and tags can change). -/
theorem update_preserves_identity_fields (s : Store) (caller fid : Nat)
    (b : UpdateBody) (fb : Feedback) (hf : findFeedback s fid = some fb)
    (hown : fb.student = caller) :
    (updateFeedback s caller fid b).1 = ⟨200, true, "Feedback updated successfully"⟩ ∧
    findFeedback (updateFeedback s caller fid b).2 fid =
      some (updatedFeedbackDoc fb b) ∧
    (updatedFeedbackDoc fb b).student = fb.student ∧
    (updatedFeedbackDoc fb b).course = fb.course ∧
    (updatedFeedbackDoc fb b).status = fb.status := by
  have hbne : (fb.student != caller) = false := by simp [hown]
  have hf' : s.feedbacks.find? (fun g : Feedback => g.id == fid) = some fb := hf
  have hpf := List.find?_some hf'
  have hupd : updateFeedback s caller fid b =
      (⟨200, true, "Feedback updated successfully"⟩,
       { s with feedbacks := s.feedbacks.map (fun g =>
          if g.id == fid then updatedFeedbackDoc fb b else g) }) := by
    simp [updateFeedback, hf, hbne]
  refine ⟨by rw [hupd], ?_, (updatedFeedbackDoc_frame fb b).1,
    (updatedFeedbackDoc_frame fb b).2.1, (updatedFeedbackDoc_frame fb b).2.2.1⟩
  rw [hupd]
  exact find?_map_replace _ _ s.feedbacks fb hf'
    (by rw [show (updatedFeedbackDoc fb b).id = fb.id from
      (updatedFeedbackDoc_frame fb b).2.2.2]; exact hpf)

/-- Witness for C10: owner 100 changes the rating of feedback 10; the
stored document keeps its student, course and status. -/
theorem update_preserves_identity_fields_witness :
    (updateFeedback demoStore 100 10 ⟨some 2, none, none, none⟩).1 =
      ⟨200, true, "Feedback updated successfully"⟩ ∧
    findFeedback (updateFeedback demoStore 100 10 ⟨some 2, none, none, none⟩).2 10 =
      some (updatedFeedbackDoc demoFeedback1 ⟨some 2, none, none, none⟩) ∧
    (updatedFeedbackDoc demoFeedback1 ⟨some 2, none, none, none⟩).student =
      demoFeedback1.student ∧
    (updatedFeedbackDoc demoFeedback1 ⟨some 2, none, none, none⟩).course =
      demoFeedback1.course ∧
    (updatedFeedbackDoc demoFeedback1 ⟨some 2, none, none, none⟩).status =
      demoFeedback1.status :=
  update_preserves_identity_fields demoStore 100 10 ⟨some 2, none, none, none⟩
    demoFeedback1 (by decide) rfl

end FeedbackApp
